import Mathlib

/-!
Shallow embedding of `src/main.py` (Invoice Validation & Anomaly Detection API).

Numeric cell values are modelled as `Option ℚ`: `some v` is a present numeric
value, `none` is a missing or non-numeric value whose access raises an
exception in the Python code (e.g. `KeyError`/`TypeError`); the exception
cause is modelled as the name of the offending field.  Python's `round(x, 2)`
(round-half-to-even at two decimal places) is modelled on rationals by
`round2`.  The endpoint `upload_invoices` is modelled on the parsed request
data: the filename and the (possibly failing) parse result; HTTP 400 errors
become the `Except.error` branch, and the background task added on line 131
of the source (which kills the process) becomes the `shutdownScheduled` flag
of a successful result.
-/

set_option autoImplicit false

namespace InvoiceAPI

/-- One parsed row of the uploaded table (`src/main.py` required fields). -/
structure InvoiceRow where
  invoice_number : String
  part_number : String
  qty : Option ℚ
  sell_price : Option ℚ
  cost_price : Option ℚ
  total_sale_value : Option ℚ
  total_cost_value : Option ℚ
  profit : Option ℚ
  deriving DecidableEq

/-- Round-half-to-even of a rational to an integer (Python's `round(x)`). -/
def roundHalfEven (a : ℚ) : ℤ :=
  let f : ℤ := ⌊a⌋
  if a - f < 1/2 then f
  else if (1:ℚ)/2 < a - f then f + 1
  else if f % 2 = 0 then f else f + 1

/-- Python's `round(x, 2)`: round-half-to-even at two decimal places. -/
def round2 (q : ℚ) : ℚ :=
  (roundHalfEven (q * 100) : ℚ) / 100

/-- Access of `row[name]`: raises (as `Except.error name`) when the value is
missing or non-numeric. -/
def getF (o : Option ℚ) (name : String) : Except String ℚ :=
  match o with
  | some v => Except.ok v
  | none => Except.error name

/-- Rule 1 of `validate_invoice` (line 31): total sale check.  Fields are
accessed in source order `sell_price`, `qty`, `total_sale_value`. -/
def rule1 (r : InvoiceRow) : Except String (List String) :=
  match r.sell_price with
  | none => Except.error "sell_price"
  | some sp =>
    match r.qty with
    | none => Except.error "qty"
    | some q =>
      match r.total_sale_value with
      | none => Except.error "total_sale_value"
      | some tsv =>
        Except.ok (if round2 (sp * q) ≠ round2 tsv then ["Total sale mismatch"] else [])

/-- Rule 2 of `validate_invoice` (line 34): total cost check. -/
def rule2 (r : InvoiceRow) : Except String (List String) :=
  match r.cost_price with
  | none => Except.error "cost_price"
  | some cp =>
    match r.qty with
    | none => Except.error "qty"
    | some q =>
      match r.total_cost_value with
      | none => Except.error "total_cost_value"
      | some tcv =>
        Except.ok (if round2 (cp * q) ≠ round2 tcv then ["Total cost mismatch"] else [])

/-- Rule 3 of `validate_invoice` (line 37): profit check. -/
def rule3 (r : InvoiceRow) : Except String (List String) :=
  match r.total_sale_value with
  | none => Except.error "total_sale_value"
  | some tsv =>
    match r.total_cost_value with
    | none => Except.error "total_cost_value"
    | some tcv =>
      match r.profit with
      | none => Except.error "profit"
      | some pf =>
        Except.ok (if round2 (tsv - tcv) ≠ round2 pf then ["Profit mismatch"] else [])

/-- Rule 4 of `validate_invoice` (line 40): quantity check. -/
def rule4 (r : InvoiceRow) : Except String (List String) :=
  match r.qty with
  | none => Except.error "qty"
  | some q =>
    Except.ok (if q ≤ 0 then ["Invalid quantity"] else [])

/-- `validate_invoice` (lines 27-46): the four rules run in order inside one
`try` block; the first raised exception aborts the remaining rules and
appends `"Validation error: <cause>"` to the issues accumulated so far. -/
def validate_invoice (r : InvoiceRow) : List String :=
  match rule1 r with
  | Except.error e => ["Validation error: " ++ e]
  | Except.ok i1 =>
    match rule2 r with
    | Except.error e => i1 ++ ["Validation error: " ++ e]
    | Except.ok i2 =>
      match rule3 r with
      | Except.error e => i1 ++ i2 ++ ["Validation error: " ++ e]
      | Except.ok i3 =>
        match rule4 r with
        | Except.error e => i1 ++ i2 ++ i3 ++ ["Validation error: " ++ e]
        | Except.ok i4 => i1 ++ i2 ++ i3 ++ i4

/-- The composite duplicate key `(invoice_number, part_number)` (line 80). -/
def dupKey (r : InvoiceRow) : String × String :=
  (r.invoice_number, r.part_number)

/-- `df.duplicated(subset=["invoice_number", "part_number"], keep=False)`
(line 80): a row is flagged exactly when its key occurs at least twice in
the whole dataset. -/
def is_duplicate (ds : List InvoiceRow) (r : InvoiceRow) : Bool :=
  decide (2 ≤ (ds.filter (fun s => dupKey s = dupKey r)).length)

/-- The per-row issue sequence after the duplicate flag is merged
(lines 84-90): the validator issues, then `"Duplicate invoice"` appended
when the row is flagged. -/
def issueList (ds : List InvoiceRow) (r : InvoiceRow) : List String :=
  validate_invoice r ++ (if is_duplicate ds r then ["Duplicate invoice"] else [])

/-- Python's `", ".join` on a list of strings; the code maps an empty list
to `""` (line 93), which `joinIssues []` also yields. -/
def joinIssues : List String → String
  | [] => ""
  | [a] => a
  | a :: rest => a ++ ", " ++ joinIssues rest

/-- One annotated output row: the original row plus the `Issue Type` and
`Status` columns (lines 93-94). -/
structure AnnotatedRow where
  row : InvoiceRow
  issue_type : String
  status : String
  deriving DecidableEq

/-- Per-row report assembly (lines 88-94): join the issue sequence into the
display string and derive the status from its emptiness. -/
def annotateRow (ds : List InvoiceRow) (r : InvoiceRow) : AnnotatedRow :=
  let s := joinIssues (issueList ds r)
  { row := r, issue_type := s, status := if s = "" then "Valid" else "Invalid" }

/-- The whole per-row pipeline over the parsed dataset (lines 80-95). -/
def processDataset (ds : List InvoiceRow) : List AnnotatedRow :=
  ds.map (annotateRow ds)

/-- A rejected request: the HTTP status code and detail message. -/
structure UploadError where
  code : ℕ
  detail : String
  deriving DecidableEq

/-- A successful response: the annotated rows, plus whether the endpoint
scheduled the `shutdown_server` background task (line 131), which sends
SIGINT to the process after the response. -/
structure UploadResult where
  rows : List AnnotatedRow
  shutdownScheduled : Bool
  deriving DecidableEq

/-- Python's `s.endswith(suffix)`, as a suffix test on the character data. -/
def endswith (s suffix : String) : Bool :=
  suffix.data.isSuffixOf s.data

/-- `upload_invoices` (lines 59-141) on the parsed request data: `filename`
is the uploaded file's name and `parsed` the outcome of
`pd.read_json`/`pd.read_csv` (`none` when parsing raises). -/
def upload_invoices (filename : String) (parsed : Option (List InvoiceRow)) :
    Except UploadError UploadResult :=
  if ¬ (endswith filename ".json" ∨ endswith filename ".csv") then
    Except.error { code := 400, detail := "Only JSON or CSV files supported" }
  else
    match parsed with
    | none => Except.error { code := 400, detail := "File read error" }
    | some ds => Except.ok { rows := processDataset ds, shutdownScheduled := true }

/-- Column-list semantics of `df[c] = ...` (pandas): an existing column is
overwritten in place, a new one is appended at the end. -/
def assignCol (cols : List String) (c : String) : List String :=
  if c ∈ cols then cols else cols ++ [c]

/-- Column-list semantics of `df.drop(columns=[c])`. -/
def dropCol (cols : List String) (c : String) : List String :=
  cols.filter (fun x => x ≠ c)

/-- The column list of the exported table (lines 80-95): add `is_duplicate`,
`Issue Type`, `Status`, then drop `is_duplicate`. -/
def outputColumns (cols : List String) : List String :=
  dropCol (assignCol (assignCol (assignCol cols "is_duplicate") "Issue Type") "Status")
    "is_duplicate"

/-- A fully consistent example row: `10 * 2 = 20`, `1 * 2 = 2`, `20 - 2 = 18`. -/
def okRow : InvoiceRow :=
  { invoice_number := "INV1", part_number := "P1", qty := some 2, sell_price := some 10,
    cost_price := some 1, total_sale_value := some 20, total_cost_value := some 2,
    profit := some 18 }

/-- `okRow` with `total_sale_value` changed to `20.01`. -/
def okRow01 : InvoiceRow :=
  { okRow with total_sale_value := some (2001 / 100) }

/-- A row with negative quantity whose `sell_price` is missing. -/
def negQtyMissingPriceRow : InvoiceRow :=
  { okRow with qty := some (-1), sell_price := none }

/-- A row whose `cost_price` is missing and whose first rule fires
(`1 * 1 = 1` differs from the recorded total sale value `3`). -/
def missingCostRow : InvoiceRow :=
  { okRow with cost_price := none, sell_price := some 1, qty := some 1, total_sale_value := some 3 }

lemma rule1_ok (r : InvoiceRow) (l : List String) (h : rule1 r = Except.ok l) :
    l = [] ∨ l = ["Total sale mismatch"] := by
  unfold rule1 at h
  split at h
  · exact Except.noConfusion h
  · split at h
    · exact Except.noConfusion h
    · split at h
      · exact Except.noConfusion h
      · injection h with h
        subst h
        split <;> simp

lemma rule2_ok (r : InvoiceRow) (l : List String) (h : rule2 r = Except.ok l) :
    l = [] ∨ l = ["Total cost mismatch"] := by
  unfold rule2 at h
  split at h
  · exact Except.noConfusion h
  · split at h
    · exact Except.noConfusion h
    · split at h
      · exact Except.noConfusion h
      · injection h with h
        subst h
        split <;> simp

lemma rule3_ok (r : InvoiceRow) (l : List String) (h : rule3 r = Except.ok l) :
    l = [] ∨ l = ["Profit mismatch"] := by
  unfold rule3 at h
  split at h
  · exact Except.noConfusion h
  · split at h
    · exact Except.noConfusion h
    · split at h
      · exact Except.noConfusion h
      · injection h with h
        subst h
        split <;> simp

lemma rule4_ok (r : InvoiceRow) (l : List String) (h : rule4 r = Except.ok l) :
    l = [] ∨ l = ["Invalid quantity"] := by
  unfold rule4 at h
  split at h
  · exact Except.noConfusion h
  · injection h with h
    subst h
    split <;> simp

lemma rule1_mem (r : InvoiceRow) (l : List String) (h : rule1 r = Except.ok l)
    (s : String) (hs : s ∈ l) : s = "Total sale mismatch" := by
  rcases rule1_ok r l h with rfl | rfl
  · cases hs
  · simpa using hs

lemma rule2_mem (r : InvoiceRow) (l : List String) (h : rule2 r = Except.ok l)
    (s : String) (hs : s ∈ l) : s = "Total cost mismatch" := by
  rcases rule2_ok r l h with rfl | rfl
  · cases hs
  · simpa using hs

lemma rule3_mem (r : InvoiceRow) (l : List String) (h : rule3 r = Except.ok l)
    (s : String) (hs : s ∈ l) : s = "Profit mismatch" := by
  rcases rule3_ok r l h with rfl | rfl
  · cases hs
  · simpa using hs

lemma rule4_mem (r : InvoiceRow) (l : List String) (h : rule4 r = Except.ok l)
    (s : String) (hs : s ∈ l) : s = "Invalid quantity" := by
  rcases rule4_ok r l h with rfl | rfl
  · cases hs
  · simpa using hs

lemma validate_mem_all {P : String → Prop} (hP1 : P "Total sale mismatch")
    (hP2 : P "Total cost mismatch") (hP3 : P "Profit mismatch")
    (hP4 : P "Invalid quantity") (hPe : ∀ c, P ("Validation error: " ++ c))
    (r : InvoiceRow) (s : String) (hs : s ∈ validate_invoice r) : P s := by
  unfold validate_invoice at hs
  split at hs
  · rename_i e heq
    simp only [List.mem_singleton] at hs
    subst hs
    exact hPe e
  · rename_i i1 h1
    split at hs
    · rename_i e heq
      rcases List.mem_append.mp hs with hs | hs
      · have hx := rule1_mem r i1 h1 s hs; subst hx; exact hP1
      · simp only [List.mem_singleton] at hs
        subst hs
        exact hPe e
    · rename_i i2 h2
      split at hs
      · rename_i e heq
        rcases List.mem_append.mp hs with hs | hs
        · rcases List.mem_append.mp hs with hs | hs
          · have hx := rule1_mem r i1 h1 s hs; subst hx; exact hP1
          · have hx := rule2_mem r i2 h2 s hs; subst hx; exact hP2
        · simp only [List.mem_singleton] at hs
          subst hs
          exact hPe e
      · rename_i i3 h3
        split at hs
        · rename_i e heq
          rcases List.mem_append.mp hs with hs | hs
          · rcases List.mem_append.mp hs with hs | hs
            · rcases List.mem_append.mp hs with hs | hs
              · have hx := rule1_mem r i1 h1 s hs; subst hx; exact hP1
              · have hx := rule2_mem r i2 h2 s hs; subst hx; exact hP2
            · have hx := rule3_mem r i3 h3 s hs; subst hx; exact hP3
          · simp only [List.mem_singleton] at hs
            subst hs
            exact hPe e
        · rename_i i4 h4
          rcases List.mem_append.mp hs with hs | hs
          · rcases List.mem_append.mp hs with hs | hs
            · rcases List.mem_append.mp hs with hs | hs
              · have hx := rule1_mem r i1 h1 s hs; subst hx; exact hP1
              · have hx := rule2_mem r i2 h2 s hs; subst hx; exact hP2
            · have hx := rule3_mem r i3 h3 s hs; subst hx; exact hP3
          · have hx := rule4_mem r i4 h4 s hs; subst hx; exact hP4

lemma error_label_ne_empty (c : String) : "Validation error: " ++ c ≠ "" := by
  intro h
  have hl := congrArg String.length h
  rw [String.length_append] at hl
  have h18 : String.length "Validation error: " = 18 := by decide
  have h0 : String.length "" = 0 := by decide
  omega

lemma error_label_ne_dup (c : String) : "Validation error: " ++ c ≠ "Duplicate invoice" := by
  intro h
  have hl := congrArg String.length h
  rw [String.length_append] at hl
  have h18 : String.length "Validation error: " = 18 := by decide
  have h17 : String.length "Duplicate invoice" = 17 := by decide
  omega

lemma validate_label_ne_empty (r : InvoiceRow) (s : String)
    (hs : s ∈ validate_invoice r) : s ≠ "" :=
  validate_mem_all (P := fun x => x ≠ "") (by decide) (by decide) (by decide) (by decide)
    error_label_ne_empty r s hs

lemma dup_not_in_validate (r : InvoiceRow) :
    "Duplicate invoice" ∉ validate_invoice r := fun h =>
  validate_mem_all (P := fun s => s ≠ "Duplicate invoice") (by decide) (by decide)
    (by decide) (by decide) error_label_ne_dup r _ h rfl

lemma issueList_label_ne_empty (ds : List InvoiceRow) (r : InvoiceRow) (s : String)
    (hs : s ∈ issueList ds r) : s ≠ "" := by
  rcases List.mem_append.mp hs with h | h
  · exact validate_label_ne_empty r s h
  · split at h
    · simp only [List.mem_singleton] at h
      subst h
      decide
    · cases h

lemma joinIssues_ne_empty (xs : List String) (hne : xs ≠ [])
    (hall : ∀ s ∈ xs, s ≠ "") : joinIssues xs ≠ "" := by
  rcases xs with _ | ⟨a, _ | ⟨b, t⟩⟩
  · exact absurd rfl hne
  · simpa [joinIssues] using hall a (by simp)
  · intro h
    have hl := congrArg String.length h
    have hrw : joinIssues (a :: b :: t) = a ++ ", " ++ joinIssues (b :: t) := rfl
    rw [hrw, String.length_append, String.length_append] at hl
    have h2 : String.length ", " = 2 := by decide
    have h0 : String.length "" = 0 := by decide
    omega

lemma validate_eval (inv part : String) (q sp cp tsv tcv pf : ℚ) :
    validate_invoice ⟨inv, part, some q, some sp, some cp, some tsv, some tcv, some pf⟩ =
      (if round2 (sp * q) ≠ round2 tsv then ["Total sale mismatch"] else []) ++
      (if round2 (cp * q) ≠ round2 tcv then ["Total cost mismatch"] else []) ++
      (if round2 (tsv - tcv) ≠ round2 pf then ["Profit mismatch"] else []) ++
      (if q ≤ 0 then ["Invalid quantity"] else []) := rfl

lemma joinIssues_empty_iff (ds : List InvoiceRow) (r : InvoiceRow) :
    joinIssues (issueList ds r) = "" ↔ issueList ds r = [] := by
  constructor
  · intro h
    by_contra hne
    exact joinIssues_ne_empty _ hne (issueList_label_ne_empty ds r) h
  · intro h
    rw [h]
    rfl

/-- Claim C1: for every record of the output dataset, `Status` is `"Invalid"`
exactly when the record's issue sequence is non-empty, and `"Valid"` exactly
when it is empty; the status is determined by issue-sequence emptiness
alone. -/
theorem status_invalid_iff_issues_nonempty (ds : List InvoiceRow) (a : AnnotatedRow)
    (ha : a ∈ processDataset ds) :
    (a.status = "Invalid" ↔ issueList ds a.row ≠ []) ∧
    (a.status = "Valid" ↔ issueList ds a.row = []) := by
  obtain ⟨r, hr, rfl⟩ := List.mem_map.mp (by simpa [processDataset] using ha)
  have hrow : (annotateRow ds r).status =
      if joinIssues (issueList ds r) = "" then "Valid" else "Invalid" := rfl
  by_cases hj : joinIssues (issueList ds r) = ""
  · have hempty : issueList ds r = [] := (joinIssues_empty_iff ds r).mp hj
    rw [hrow, if_pos hj]
    exact ⟨⟨fun h => absurd h (by decide), fun h => absurd hempty h⟩,
      ⟨fun _ => hempty, fun _ => rfl⟩⟩
  · have hne : issueList ds r ≠ [] := fun h => hj ((joinIssues_empty_iff ds r).mpr h)
    rw [hrow, if_neg hj]
    exact ⟨⟨fun _ => hne, fun _ => rfl⟩,
      ⟨fun h => absurd h (by decide), fun h => absurd h hne⟩⟩

/-- Witness for C1 at a concrete one-row dataset. -/
theorem status_invalid_iff_issues_nonempty_wit :
    ((annotateRow [negQtyMissingPriceRow] negQtyMissingPriceRow).status = "Invalid" ↔
      issueList [negQtyMissingPriceRow] negQtyMissingPriceRow ≠ []) ∧
    ((annotateRow [negQtyMissingPriceRow] negQtyMissingPriceRow).status = "Valid" ↔
      issueList [negQtyMissingPriceRow] negQtyMissingPriceRow = []) :=
  status_invalid_iff_issues_nonempty [negQtyMissingPriceRow]
    (annotateRow [negQtyMissingPriceRow] negQtyMissingPriceRow) (by simp [processDataset])

/-- Claim C2 counterexample: a record with `qty = -1` whose `sell_price` is
missing does not receive `"Invalid quantity"`, because the exception raised
by rule 1 skips rule 4; this refutes the claim that rule 4 fires for every
non-positive quantity regardless of missing values in other fields. -/
theorem invalid_quantity_skipped_on_missing_field :
    negQtyMissingPriceRow.qty = some (-1) ∧
    "Invalid quantity" ∉ validate_invoice negQtyMissingPriceRow := by
  refine ⟨rfl, ?_⟩
  decide

/-- Claim C2 (amended): when every required field is present and numeric, a
record with `qty ≤ 0` always receives `"Invalid quantity"`, regardless of
whether rules 1-3 also fire. -/
theorem invalid_quantity_flagged_when_fields_present (inv part : String)
    (q sp cp tsv tcv pf : ℚ) (hq : q ≤ 0) :
    "Invalid quantity" ∈ validate_invoice
      ⟨inv, part, some q, some sp, some cp, some tsv, some tcv, some pf⟩ := by
  rw [validate_eval]
  refine List.mem_append_right _ ?_
  rw [if_pos hq]
  simp

/-- Witness for the amended C2 at a concrete record. -/
theorem invalid_quantity_flagged_when_fields_present_wit :
    "Invalid quantity" ∈ validate_invoice
      ⟨"INV1", "P1", some (-1), some 10, some 1, some 20, some 2, some 18⟩ :=
  invalid_quantity_flagged_when_fields_present "INV1" "P1" (-1) 10 1 20 2 18 (by norm_num)

/-- Claim C3 counterexample: a record whose `cost_price` is missing but whose
rule 1 fires yields a two-element issue list, the rule-1 label followed by
the error label, not the claimed single `"Validation error: <cause>"` label
replacing the rule results. -/
theorem validation_error_keeps_earlier_issues :
    validate_invoice missingCostRow =
      ["Total sale mismatch", "Validation error: cost_price"] := by
  norm_num [missingCostRow, okRow, validate_invoice, rule1, rule2, rule3, rule4,
    round2, roundHalfEven]
  rfl

/-- Claim C3 (amended): for every record with a missing or non-numeric
required field, the validator never raises and ends its issue list with a
single `"Validation error: <cause>"` label; the checks after the failing
field access are skipped, while labels of rules evaluated before it are
retained in front of the error label. -/
theorem validation_error_appended_after_earlier_issues (r : InvoiceRow)
    (h : r.sell_price = none ∨ r.qty = none ∨ r.total_sale_value = none ∨
      r.cost_price = none ∨ r.total_cost_value = none ∨ r.profit = none) :
    ∃ pre c, validate_invoice r = pre ++ ["Validation error: " ++ c] ∧
      ∀ s ∈ pre, s = "Total sale mismatch" ∨ s = "Total cost mismatch" ∨
        s = "Profit mismatch" := by
  obtain ⟨inv, part, q, sp, cp, tsv, tcv, pf⟩ := r
  rcases sp with _ | vsp
  · exact ⟨[], "sell_price", rfl, by simp⟩
  rcases q with _ | vq
  · exact ⟨[], "qty", rfl, by simp⟩
  rcases tsv with _ | vtsv
  · exact ⟨[], "total_sale_value", rfl, by simp⟩
  rcases cp with _ | vcp
  · refine ⟨if round2 (vsp * vq) ≠ round2 vtsv then ["Total sale mismatch"] else [],
      "cost_price", rfl, ?_⟩
    intro s hs
    split at hs
    · simp only [List.mem_singleton] at hs
      exact Or.inl hs
    · cases hs
  rcases tcv with _ | vtcv
  · refine ⟨if round2 (vsp * vq) ≠ round2 vtsv then ["Total sale mismatch"] else [],
      "total_cost_value", rfl, ?_⟩
    intro s hs
    split at hs
    · simp only [List.mem_singleton] at hs
      exact Or.inl hs
    · cases hs
  rcases pf with _ | vpf
  · refine ⟨(if round2 (vsp * vq) ≠ round2 vtsv then ["Total sale mismatch"] else []) ++
      (if round2 (vcp * vq) ≠ round2 vtcv then ["Total cost mismatch"] else []),
      "profit", rfl, ?_⟩
    intro s hs
    rcases List.mem_append.mp hs with hs | hs
    · split at hs
      · simp only [List.mem_singleton] at hs
        exact Or.inl hs
      · cases hs
    · split at hs
      · simp only [List.mem_singleton] at hs
        exact Or.inr (Or.inl hs)
      · cases hs
  · simp at h

/-- Witness for the amended C3 at a concrete record with missing
`cost_price`. -/
theorem validation_error_appended_after_earlier_issues_wit :
    ∃ pre c, validate_invoice missingCostRow = pre ++ ["Validation error: " ++ c] ∧
      ∀ s ∈ pre, s = "Total sale mismatch" ∨ s = "Total cost mismatch" ∨
        s = "Profit mismatch" :=
  validation_error_appended_after_earlier_issues missingCostRow
    (Or.inr (Or.inr (Or.inr (Or.inl rfl))))

/-- Claim C4: a record carries `"Duplicate invoice"` in its issue sequence
exactly when its `(invoice_number, part_number)` key is shared by at least
one other record of the dataset, i.e. its key group has size at least two;
the flag is symmetric over the whole group and never set for unique keys. -/
theorem duplicate_flag_iff_key_shared (ds : List InvoiceRow) (r : InvoiceRow) :
    "Duplicate invoice" ∈ issueList ds r ↔
      2 ≤ (ds.filter (fun x => dupKey x = dupKey r)).length := by
  unfold issueList
  rw [List.mem_append]
  constructor
  · rintro (h | h)
    · exact absurd h (dup_not_in_validate r)
    · by_cases hd : is_duplicate ds r = true
      · exact of_decide_eq_true hd
      · rw [if_neg hd] at h
        cases h
  · intro h
    right
    have hd : is_duplicate ds r = true := decide_eq_true h
    rw [if_pos hd]
    simp

/-- Claim C5: the displayed `Issue Type` string is exactly the validator's
issue sequence, with `"Duplicate invoice"` appended when the record is
flagged as a duplicate, joined with `", "`; the empty sequence joins to the
empty string. -/
theorem issue_type_eq_joined_sequence (ds : List InvoiceRow) (r : InvoiceRow) :
    (annotateRow ds r).issue_type =
      joinIssues (validate_invoice r ++
        if is_duplicate ds r then ["Duplicate invoice"] else []) ∧
    joinIssues [] = "" :=
  ⟨rfl, rfl⟩

/-- Claim C6: with all required numeric fields present, `"Total sale
mismatch"` is emitted exactly when `sell_price * qty` and `total_sale_value`
differ after rounding to two decimal places; in particular the record with
`sell_price = 10`, `qty = 2`, `total_sale_value = 20` is not flagged and the
same record with `total_sale_value = 20.01` is. -/
theorem total_sale_mismatch_iff_round2_differs :
    (∀ (inv part : String) (q sp cp tsv tcv pf : ℚ),
      ("Total sale mismatch" ∈ validate_invoice
          ⟨inv, part, some q, some sp, some cp, some tsv, some tcv, some pf⟩ ↔
        round2 (sp * q) ≠ round2 tsv)) ∧
    "Total sale mismatch" ∉ validate_invoice okRow ∧
    "Total sale mismatch" ∈ validate_invoice okRow01 := by
  refine ⟨?_, ?_, ?_⟩
  · intro inv part q sp cp tsv tcv pf
    rw [validate_eval]
    constructor
    · intro hmem
      rcases eq_or_ne (round2 (sp * q)) (round2 tsv) with he | he
      · exfalso
        rw [if_neg (not_not_intro he)] at hmem
        simp only [List.nil_append] at hmem
        split_ifs at hmem <;> simp_all
      · exact he
    · intro hne
      refine List.mem_append_left _ (List.mem_append_left _ (List.mem_append_left _ ?_))
      rw [if_pos hne]
      simp
  · norm_num [okRow, validate_invoice, rule1, rule2, rule3, rule4, round2, roundHalfEven]
  · norm_num [okRow01, okRow, validate_invoice, rule1, rule2, rule3, rule4, round2,
      roundHalfEven]

/-- Claim C7: the endpoint answers a 400 client error exactly when the
filename ends with neither `.json` nor `.csv` or parsing fails, with no
processing performed; otherwise it processes the parsed dataset (and, per
the source, schedules the shutdown task). -/
theorem upload_rejects_iff_bad_extension_or_parse_failure (fn : String)
    (parsed : Option (List InvoiceRow)) :
    ((∃ e, upload_invoices fn parsed = Except.error e ∧ e.code = 400) ↔
      (¬ (endswith fn ".json" ∨ endswith fn ".csv") ∨ parsed = none)) ∧
    ∀ ds, parsed = some ds → (endswith fn ".json" ∨ endswith fn ".csv") →
      upload_invoices fn parsed =
        Except.ok { rows := processDataset ds, shutdownScheduled := true } := by
  unfold upload_invoices
  by_cases hfn : endswith fn ".json" ∨ endswith fn ".csv"
  · rw [if_neg (not_not_intro hfn)]
    cases parsed with
    | none =>
      refine ⟨⟨fun _ => Or.inr rfl, fun _ => ⟨_, rfl, rfl⟩⟩, ?_⟩
      intro ds hds
      exact absurd hds (by simp)
    | some ds =>
      refine ⟨⟨?_, ?_⟩, ?_⟩
      · rintro ⟨e, he, -⟩
        exact Except.noConfusion he
      · rintro (h | h)
        · exact absurd hfn h
        · exact Option.noConfusion h
      · intro ds2 hds2 _
        injection hds2 with hds2
        rw [hds2]
  · rw [if_pos hfn]
    refine ⟨⟨fun _ => Or.inl hfn, fun _ => ⟨_, rfl, rfl⟩⟩, ?_⟩
    intro ds hds hor
    exact absurd hor hfn

/-- Witness for C7: a well-formed CSV upload is processed. -/
theorem upload_rejects_iff_bad_extension_or_parse_failure_wit :
    upload_invoices "inv.csv" (some [okRow]) =
      Except.ok { rows := processDataset [okRow], shutdownScheduled := true } :=
  (upload_rejects_iff_bad_extension_or_parse_failure "inv.csv" (some [okRow])).2
    [okRow] rfl (Or.inr (by decide))

/-- Claim C8: the exported table's columns are the original input columns
followed by `Issue Type` and `Status`; the internal `is_duplicate` flag is
dropped and nothing else is added, removed or renamed (for inputs that do
not already use one of those three internal column names). -/
theorem output_columns_add_issue_and_status (cols : List String)
    (h1 : "is_duplicate" ∉ cols) (h2 : "Issue Type" ∉ cols) (h3 : "Status" ∉ cols) :
    outputColumns cols = cols ++ ["Issue Type", "Status"] := by
  have e1 : assignCol cols "is_duplicate" = cols ++ ["is_duplicate"] := by
    unfold assignCol
    rw [if_neg h1]
  have e2 : assignCol (cols ++ ["is_duplicate"]) "Issue Type" =
      (cols ++ ["is_duplicate"]) ++ ["Issue Type"] := by
    unfold assignCol
    rw [if_neg (by simp [h2])]
  have e3 : assignCol ((cols ++ ["is_duplicate"]) ++ ["Issue Type"]) "Status" =
      ((cols ++ ["is_duplicate"]) ++ ["Issue Type"]) ++ ["Status"] := by
    unfold assignCol
    rw [if_neg (by simp [h3])]
  unfold outputColumns dropCol
  rw [e1, e2, e3]
  have hc : List.filter (fun x => x ≠ "is_duplicate") cols = cols := by
    rw [List.filter_eq_self]
    intro a ha
    have hne : a ≠ "is_duplicate" := fun hx => h1 (hx ▸ ha)
    simpa using hne
  simp only [List.filter_append, hc]
  simp

/-- Witness for C8 at the spec's input schema. -/
theorem output_columns_add_issue_and_status_wit :
    outputColumns ["invoice_number", "part_number", "qty", "sell_price", "cost_price",
        "total_sale_value", "total_cost_value", "profit", "date"] =
      ["invoice_number", "part_number", "qty", "sell_price", "cost_price",
        "total_sale_value", "total_cost_value", "profit", "date", "Issue Type", "Status"] :=
  output_columns_add_issue_and_status _ (by decide) (by decide) (by decide)

/-- Claim C9 counterexample: a successful upload request schedules the
`shutdown_server` background task (which sends SIGINT to the process), so
processing a request is not free of process-lifetime side effects. -/
theorem upload_schedules_shutdown_on_success :
    upload_invoices "inv.csv" (some []) =
      Except.ok { rows := [], shutdownScheduled := true } := rfl

/-- Claim C9 (amended): the per-row validation logic is a pure function of
its input, but every successful request of the endpoint schedules the
process-shutdown background task after the response. -/
theorem upload_success_schedules_shutdown (fn : String)
    (parsed : Option (List InvoiceRow)) (res : UploadResult)
    (h : upload_invoices fn parsed = Except.ok res) :
    res.shutdownScheduled = true := by
  unfold upload_invoices at h
  split at h
  · exact Except.noConfusion h
  · split at h
    · exact Except.noConfusion h
    · injection h with h
      rw [← h]

/-- Witness for the amended C9 at a concrete successful request. -/
theorem upload_success_schedules_shutdown_wit :
    ({ rows := [], shutdownScheduled := true } : UploadResult).shutdownScheduled = true :=
  upload_success_schedules_shutdown "inv.csv" (some [])
    { rows := [], shutdownScheduled := true } rfl

/-- Claim C10: the pipeline preserves the input table's shape: the annotated
output has exactly the input's rows, in order, with every original field
unchanged; only the annotations are added. -/
theorem process_preserves_rows (ds : List InvoiceRow) :
    (processDataset ds).map AnnotatedRow.row = ds ∧
    (processDataset ds).length = ds.length := by
  constructor
  · simp only [processDataset, List.map_map]
    have hcomp : (AnnotatedRow.row ∘ annotateRow ds) = id := funext fun r => rfl
    rw [hcomp, List.map_id]
  · simp [processDataset]

end InvoiceAPI
